import Mathlib

/-!
Shallow embedding of `src/sunburn-controller.py` (the Sunburn solar-power
controller) and proofs about its control loop.  Power values, PID state and
CPU limits are modelled as rationals (`ℚ`); the Python lists are Lean lists;
statements that can raise an uncaught exception are modelled in `Except`.
-/

namespace Sunburn

/-! ### Constants (source lines 30-63) -/

def CORES : ℕ := 4

def MIN_POWER : ℚ := 18

def CHANGE_DEADZONE : ℚ := 3/2

def SHORT_AVG : ℕ := 1

def LONG_AVG : ℕ := 6

def ADJUST_INTERVAL : ℕ := 1

def OFF_LIMIT : ℤ := 2

def ON_LIMIT : ℤ := 2

def DT : ℚ := 4

def MODE_AUTO : ℕ := 0

def MODE_LIMIT_TEST : ℕ := 1

def MODE_PWR_TEST : ℕ := 2

/-- Python `int()` applied to an exact rational: truncation toward zero
(`Int.div` is T-division). -/
def pyInt (q : ℚ) : ℤ := Int.tdiv q.num (q.den : ℤ)

/-- `average(data)` (source lines 190-192): `sum(data)/float(len(data))`.
Returns `none` on the empty list, where Python raises `ZeroDivisionError`. -/
def average (data : List ℚ) : Option ℚ :=
  if data.length = 0 then none else some (data.sum / (data.length : ℚ))

/-- `adjust(target, measured, integral, pid, previous_error)` (source lines
165-188).  Returns `(adjustment, new_integral, error)`.  Note the adjustment
uses the pre-update `integral` argument, not `new_integral`. -/
def adjust (target measured integral : ℚ) (pid : ℚ × ℚ × ℚ)
    (previous_error : ℚ) : ℚ × ℚ × ℚ :=
  let error := target - measured
  let ni := integral + error * DT
  let new_integral := if ni > 10 then (10 : ℚ) else if ni < -10 then (-10 : ℚ) else ni
  let derivative := (error - previous_error) / DT
  let adjustment :=
    pid.1 * error / 10 + pid.2.1 * integral / 10 + pid.2.2 * derivative / 10
  (adjustment, new_integral, error)

/-- `core_limits` calibration table (source line 238). -/
def core_limits : List ℚ := [16, 31, 33.4, 47, 51.5]

/-- `core_conversion_multipliers` (source line 234). -/
def core_conversion_multipliers : List ℚ := [0, 4, 2, 1.34, 1]

/-- `real_cpu_use()` (source lines 67-71).  Defined in the source but never
called anywhere in the control loop. -/
def real_cpu_use (core_count : ℕ) (cpu_use : ℚ) : ℚ :=
  core_conversion_multipliers.getD core_count 0 * cpu_use

/-- The gearbox: upshift/downshift block of `main` (source lines 352-390).
Takes the running power target, the cpu limit (after the PID delta has been
added), the active core count and the PID integral; returns the updated
`(cpu_limit, core_count, integral)`. -/
def gearbox (power_target cpu : ℚ) (cores : ℕ) (integral : ℚ) :
    ℚ × ℕ × ℚ :=
  if power_target > core_limits.getD cores 0 then
    -- Change upward: increase number of used cores, reduce cpu usage.
    let cores1 := cores + 1
    if cores1 > CORES then (cpu, CORES, integral)
    else
      let upper := core_limits.getD cores1 0
      let lower := core_limits.getD (cores1 - 1) 0
      (((pyInt (((power_target - lower) / (upper - lower)) * 100) : ℤ) : ℚ),
        cores1, integral)
  else if cores > 1 then
    if power_target < core_limits.getD (cores - 1) 0 - CHANGE_DEADZONE then
      -- Change downward: decrease number of cores.
      let cores1 := cores - 1
      if cores1 < 1 then (cpu, 1, integral)
      else
        let ul : ℚ × ℚ :=
          if cores1 < 2 then (core_limits.getD 1 0, core_limits.getD 0 0)
          else if cores1 < 3 then (core_limits.getD 2 0, core_limits.getD 0 0)
          else (core_limits.getD 3 0, core_limits.getD 2 0)
        let cpu1 := ((pyInt (((power_target - ul.2) / (ul.1 - ul.2)) * 100) : ℤ) : ℚ)
        let integral1 := if integral > 5 then integral - 1 else integral
        (cpu1, cores1, integral1)
    else (cpu, cores, integral)
  else (cpu, cores, integral)

/-- Final sanity clamp of the cpu limit (source lines 393-397). -/
def clamp_cpu (c : ℚ) : ℚ :=
  if c > 100 then 100 else if c < 7 then 7 else c

/-- Result of one fired adjustment. -/
structure AdjustRes where
  cpu : ℚ
  cores : ℕ
  integral : ℚ
  previous_error : ℚ
deriving DecidableEq

/-- One fired automatic-mode adjustment: the body guarded by
`adjust_interval > ADJUST_INTERVAL` in `main` (source lines 344-403):
PID delta added to the cpu limit, then the gearbox, then the clamp. -/
def adjustment (power_target power cpu : ℚ) (cores : ℕ) (integral : ℚ)
    (pid : ℚ × ℚ × ℚ) (previous_error : ℚ) : AdjustRes :=
  let r := adjust power_target power integral pid previous_error
  let cpu1 := cpu + r.1
  let g := gearbox power_target cpu1 cores r.2.1
  ⟨clamp_cpu g.1, g.2.1, g.2.2, r.2.2⟩

/-- Outbound effects of one tick: power-control calls and network sends. -/
inductive Cmd where
  | powerOn
  | powerOff
  | send (msg : String)
deriving DecidableEq

/-- The mutable state of `main`'s loop (source lines 199-246). -/
structure PState where
  mode : ℕ
  powered : Bool
  power_counter : ℤ
  adjust_interval : ℕ
  cpu_limit : ℚ
  core_limit : ℕ
  integral : ℚ
  previous_error : ℚ
  pid : ℚ × ℚ × ℚ
  supply_power : List ℚ
  supply_power_avg : List ℚ
  usage_power : List ℚ
  usage_power_avg : List ℚ
  cpu_use : ℚ
  manual_power_target : ℚ
  budget : ℚ
deriving DecidableEq

/-- Initial state of `main` (source lines 199-246): automatic mode, unpowered,
all windows pre-seeded with one zero entry, `pid = [19, 0.5, 1]`,
`processor_limits = [7, 0]`. -/
def initState : PState where
  mode := MODE_AUTO
  powered := false
  power_counter := 0
  adjust_interval := 0
  cpu_limit := 7
  core_limit := 0
  integral := 0
  previous_error := 0
  pid := (19, 1/2, 1)
  supply_power := [0]
  supply_power_avg := [0]
  usage_power := [0]
  usage_power_avg := [0]
  cpu_use := 0
  manual_power_target := 0
  budget := 0

/-- Computer state control block of `main` (source lines 405-436): the
hysteresis counter updates, the power-on / power-off transitions, and the
forced power-on of manual-limit mode. -/
def powerStep (s : PState) (power_target : ℚ) : PState × List Cmd :=
  if s.mode ≠ MODE_LIMIT_TEST then
    let c1 : ℤ :=
      if power_target < MIN_POWER ∧ s.powered = true then s.power_counter - 1 else 0
    let c2 : ℤ :=
      if power_target > MIN_POWER ∧ s.powered = false then c1 + 1 else 0
    if c2 > ON_LIMIT then
      ({ s with powered := true, power_counter := c2, core_limit := 1 },
        [Cmd.powerOn])
    else if c2 < OFF_LIMIT then
      ({ s with powered := false, power_counter := c2, core_limit := 0 },
        [Cmd.powerOff, Cmd.send "shutdown:"])
    else ({ s with power_counter := c2 }, [])
  else if s.powered = false then
    ({ s with powered := true }, [Cmd.powerOn])
  else (s, [])

/-- Iterate the computer state control block with a fixed power target,
collecting the emitted commands. -/
def runPower (power_target : ℚ) (s : PState) : ℕ → PState × List Cmd
  | 0 => (s, [])
  | n + 1 =>
    let r := runPower power_target s n
    let r2 := powerStep r.1 power_target
    (r2.1, r.2 ++ r2.2)

/-! ### Inbound message handling -/

/-- Split a character list at every occurrence of `sep`; always returns a
nonempty list of chunks (model of Python `str.split`). -/
def splitChars (sep : Char) : List Char → List (List Char)
  | [] => [[]]
  | c :: cs =>
    let r := splitChars sep cs
    if c = sep then [] :: r else (c :: r.headD []) :: r.tail

/-- Python `msg.split(":")`. -/
def pySplit (s : String) : List String :=
  (splitChars ':' s.data).map String.mk

/-- Sum a digit list into a natural number. -/
def natOfDigits (l : List Char) : ℕ :=
  l.foldl (fun a c => 10 * a + (c.toNat - 48)) 0

/-- Simplified model of Python `float()`: an optional sign, then a decimal
numeral with an optional fractional part; anything else (notably the empty
string or non-digit text) is rejected with `none` (Python: `ValueError`). -/
def pyFloat (s : String) : Option ℚ :=
  let p : ℚ × List Char :=
    match s.data with
    | '-' :: r => (-1, r)
    | '+' :: r => (1, r)
    | l => (1, l)
  match splitChars '.' p.2 with
  | [ip] =>
    if ip ≠ [] ∧ ip.all Char.isDigit = true then some (p.1 * natOfDigits ip)
    else none
  | [ip, fp] =>
    if (ip ≠ [] ∨ fp ≠ []) ∧ ip.all Char.isDigit = true ∧
        fp.all Char.isDigit = true then
      some (p.1 * ((natOfDigits ip : ℚ) + (natOfDigits fp : ℚ) / 10 ^ fp.length))
    else none
  | _ => none

/-- Inbound status handling of `main` (source lines 277-289).  Returns the
new `cpu_use`.  A missing message yields `0`; a `status` reply whose numeric
field fails to parse yields `0` (the `ValueError` handler); any other prefix
leaves `cpu_use` unchanged.  A bare `"status"` with no second field raises an
uncaught `IndexError` (`data[1]`), modelled as `Except.error`. -/
def ingest (msg : Option String) (cpu_use : ℚ) : Except String ℚ :=
  match msg with
  | none => Except.ok 0
  | some m =>
    let data := pySplit m
    if data.headD "" = "status" then
      match data with
      | _ :: f :: _ => Except.ok ((pyFloat f).getD 0)
      | _ => Except.error "IndexError"
    else Except.ok cpu_use

/-! ### The measurement / averaging-window stage and the full tick -/

/-- Window logging of `main` (source lines 300-325): append the supply-side
value (the measured supply power, or the manual power target in mode 2) to
both supply windows, then pop the oldest entries once the supply windows
exceed their capacities.  Note the source never appends to the usage windows
but does pop them. -/
def updateWindows (s : PState) (measured_supply : ℚ) : PState :=
  let v := if s.mode < MODE_PWR_TEST then measured_supply else s.manual_power_target
  let sp := s.supply_power ++ [v]
  let spa := s.supply_power_avg ++ [v]
  let short_over := sp.length > SHORT_AVG
  let long_over := spa.length > LONG_AVG
  { s with
    supply_power := if short_over then sp.tail else sp
    usage_power := if short_over then s.usage_power.tail else s.usage_power
    supply_power_avg := if long_over then spa.tail else spa
    usage_power_avg := if long_over then s.usage_power_avg.tail else s.usage_power_avg }

/-- The adjustment stage of `main` (source lines 344-403): runs only when the
mode is not manual-limit and the system is powered, and only once the
adjustment interval has been exceeded. -/
def adjStage (s : PState) (power_target power : ℚ) : PState :=
  if s.mode ≠ MODE_LIMIT_TEST ∧ s.powered = true then
    if s.adjust_interval > ADJUST_INTERVAL then
      let r := adjustment power_target power s.cpu_limit s.core_limit s.integral
        s.pid s.previous_error
      { s with adjust_interval := 0, cpu_limit := r.cpu, core_limit := r.cores,
               integral := r.integral, previous_error := r.previous_error }
    else s
  else s

/-- Stand-in for Python `str()` on the cpu limit inside the control command;
deterministic in the value (the exact decimal rendering is irrelevant to
every claim). -/
def pyStr (q : ℚ) : String := toString q.num ++ "/" ++ toString q.den

/-- Everything `main`'s loop body does after the inbound-message ingestion
(source lines 292-451): window logging, the two averages (a division by zero
on an empty window is `Except.error`), the adjustment stage, the computer
state control block, the adjust-interval bookkeeping, the outbound control
and status-poll commands, and the budget update. -/
def tickRest (s : PState) (measured_supply : ℚ) :
    Except String (PState × List Cmd) :=
  let s1 := updateWindows s measured_supply
  match average s1.supply_power with
  | none => Except.error "ZeroDivisionError"
  | some power_target =>
    match average s1.usage_power with
    | none => Except.error "ZeroDivisionError"
    | some power =>
      let s2 := adjStage s1 power_target power
      let r := powerStep s2 power_target
      let s3 := r.1
      let ai := if s3.adjust_interval > ADJUST_INTERVAL then 0 else s3.adjust_interval
      let s4 := { s3 with adjust_interval := ai + 1 }
      let cmds :=
        if s4.powered = true then
          r.2 ++ [Cmd.send ("control:" ++ toString s4.core_limit ++ ":" ++
                    pyStr s4.cpu_limit),
                  Cmd.send "status:"]
        else r.2
      let s5 := { s4 with budget := s4.budget + (power_target - power) }
      Except.ok (s5, cmds)

/-- One full iteration of `main`'s loop (without the interactive settings
menu): ingest the inbound message, then run the rest of the tick. -/
def tick (s : PState) (msg : Option String) (measured_supply : ℚ) :
    Except String (PState × List Cmd) := do
  let c ← ingest msg s.cpu_use
  tickRest { s with cpu_use := c } measured_supply

/-- Run the loop over a list of per-tick inputs (inbound message, measured
supply power), collecting all emitted commands. -/
def run (s : PState) : List (Option String × ℚ) → Except String (PState × List Cmd)
  | [] => Except.ok (s, [])
  | i :: rest => do
    let r ← tick s i.1 i.2
    let r2 ← run r.1 rest
    Except.ok (r2.1, r.2 ++ r2.2)

/-- Forget the ingested `cpu_use` reading (the only state component a status
reply's numeric value can reach). -/
def eraseCpu (s : PState) : PState := { s with cpu_use := 0 }

/-- The `MODE_PWR_TEST` branch of `interface` (source lines 152-163): the
operator-entered value is read into the local `i` and normalised
(`if i < 1: i = 0`), but never assigned to `manual_target`, which is returned
unchanged. -/
def interface_pwr (entered : ℚ) (manual_target : ℚ) : ℚ :=
  let i := entered
  let _i2 := if i < 1 then (0 : ℚ) else i
  manual_target

/-! ### Helper lemmas -/

lemma clamp_chain_eq_max_min (x : ℚ) :
    (if x > 10 then (10 : ℚ) else if x < -10 then (-10 : ℚ) else x) =
      max (-10) (min 10 x) := by
  simp only [max_def, min_def]
  split_ifs <;> linarith

lemma clamp_cpu_bounds (c : ℚ) : 7 ≤ clamp_cpu c ∧ clamp_cpu c ≤ 100 := by
  unfold clamp_cpu
  split_ifs <;> constructor <;> linarith

lemma gearbox_cores_bounds (pt cpu : ℚ) (cores : ℕ) (integral : ℚ)
    (h1 : 1 ≤ cores) (h2 : cores ≤ 4) :
    1 ≤ (gearbox pt cpu cores integral).2.1 ∧
      (gearbox pt cpu cores integral).2.1 ≤ 4 := by
  unfold gearbox CORES
  split_ifs <;> dsimp only <;> (try split_ifs) <;> (try dsimp only) <;> omega

/-! ### Claims -/

/-- C6 (confirmed): the PID `adjust` step computes `error = target − measured`,
`new_integral = clamp(integral + error·DT, −10, 10)`,
`derivative = (error − previous_error)/DT`, and returns
`delta = kp·error/10 + ki·integral/10 + kd·derivative/10`, where the integral
term uses the pre-update `integral` argument, not `new_integral`. -/
theorem C6_adjust_formula (target measured integral : ℚ) (pid : ℚ × ℚ × ℚ)
    (previous_error : ℚ) :
    adjust target measured integral pid previous_error =
      (pid.1 * (target - measured) / 10 + pid.2.1 * integral / 10 +
         pid.2.2 * ((target - measured - previous_error) / DT) / 10,
       max (-10) (min 10 (integral + (target - measured) * DT)),
       target - measured) := by
  simp only [adjust]
  rw [clamp_chain_eq_max_min]

/-- C9 (confirmed): with `target = measured` the PID error is `0`, the clamp
leaves a previously clamped integral unchanged, and once `previous_error` has
settled to `0` the returned delta is `ki·integral/10`. -/
theorem C9_pid_steady (t i : ℚ) (pid : ℚ × ℚ × ℚ) (p : ℚ)
    (h1 : -10 ≤ i) (h2 : i ≤ 10) :
    (adjust t t i pid p).2.2 = 0 ∧ (adjust t t i pid p).2.1 = i ∧
      (adjust t t i pid 0).1 = pid.2.1 * i / 10 := by
  unfold adjust
  refine ⟨by ring_nf, ?_, by ring_nf⟩
  have he : t - t = 0 := by ring
  rw [he]
  simp only [zero_mul, add_zero]
  split_ifs <;> linarith

/-- C9 witness: steady state at `target = measured = 5` with integral `3`. -/
theorem C9_witness :
    (adjust 5 5 3 (19, 1/2, 1) 2).2.2 = 0 ∧
      (adjust 5 5 3 (19, 1/2, 1) 2).2.1 = 3 ∧
      (adjust 5 5 3 (19, 1/2, 1) 0).1 = (1/2 : ℚ) * 3 / 10 :=
  C9_pid_steady 5 3 (19, 1/2, 1) 2 (by norm_num) (by norm_num)

lemma powerStep_off_step (s : PState) (pt : ℚ)
    (hm : s.mode ≠ MODE_LIMIT_TEST) (hp : s.powered = false) :
    (powerStep s pt).1.powered = false ∧ (powerStep s pt).1.mode = s.mode ∧
      (powerStep s pt).2 = [Cmd.powerOff, Cmd.send "shutdown:"] := by
  unfold powerStep
  rw [if_pos hm]
  by_cases hgt : pt > MIN_POWER <;>
    simp [hp, hgt, ON_LIMIT, OFF_LIMIT]

/-- C1 (code_bug): in automatic mode starting OFF, with `power_target = 19`
(strictly above `MIN_POWER = 18`) held on every tick, the system never powers
on — at no tick count, in particular not at `ON_LIMIT + 2` — because the
on-tendency counter is zeroed by the off-branch `else` each tick before being
incremented, so it never exceeds `ON_LIMIT`. -/
theorem C1_never_powers_on (n : ℕ) :
    (runPower 19 initState n).1.powered = false ∧
      Cmd.powerOn ∉ (runPower 19 initState n).2 := by
  have key : ∀ m : ℕ, (runPower 19 initState m).1.powered = false ∧
      (runPower 19 initState m).1.mode = MODE_AUTO ∧
      Cmd.powerOn ∉ (runPower 19 initState m).2 := by
    intro m
    induction m with
    | zero => refine ⟨rfl, rfl, by simp [runPower]⟩
    | succ k ih =>
      obtain ⟨hp, hm, hmem⟩ := ih
      have hmode : (runPower 19 initState k).1.mode ≠ MODE_LIMIT_TEST := by
        rw [hm]; decide
      obtain ⟨h1, h2, h3⟩ := powerStep_off_step _ 19 hmode hp
      refine ⟨?_, ?_, ?_⟩
      · simpa [runPower] using h1
      · simp only [runPower]
        rw [h2, hm]
      · simp only [runPower, List.mem_append]
        rw [h3]
        simp [hmem]
  exact ⟨(key n).1, (key n).2.2⟩

/-- C2 (code_bug): in `MODE_PWR_TEST` with the target fixed at `5` (below
`MIN_POWER`) while already powered, the computer state control block issues
power-off and the `"shutdown:"` message on the very first tick and then again
on every later tick: after `ON_LIMIT + 1 = 3` ticks the message has been
sent three times, not exactly once. -/
theorem C2_shutdown_every_tick :
    (runPower 5
        { initState with mode := MODE_PWR_TEST, powered := true,
                         core_limit := 1, manual_power_target := 5 } 3).2.count
        (Cmd.send "shutdown:") = 3 ∧
      (runPower 5
        { initState with mode := MODE_PWR_TEST, powered := true,
                         core_limit := 1, manual_power_target := 5 } 1).2 =
        [Cmd.powerOff, Cmd.send "shutdown:"] := by
  constructor <;> decide

/-- C3 (code_bug): the loop never appends to the usage windows but pops them
alongside the supply windows, so on the very first tick the short usage
window becomes empty, its average is undefined, and the tick dies with a
`ZeroDivisionError` — refuting «each averaging window is never empty». -/
theorem C3_usage_window_emptied :
    (updateWindows initState 20).usage_power = [] ∧
      average (updateWindows initState 20).usage_power = none ∧
      tick initState none 20 = Except.error "ZeroDivisionError" :=
  ⟨rfl, rfl, rfl⟩

/-- C7 (code_bug): the `MODE_PWR_TEST` branch of `interface` reads the
operator's value into the local `i` but never assigns it to the manual
target: entering `25` leaves the target at `0`, and in general the returned
manual target equals the old one for every entered value.  (The true half of
the claim: in mode 2 the supply windows do receive the stored manual target
instead of the measurement.) -/
theorem C7_manual_target_discarded :
    interface_pwr 25 0 = 0 ∧ (∀ e t : ℚ, interface_pwr e t = t) ∧
      (updateWindows
          { initState with mode := MODE_PWR_TEST, manual_power_target := 7 }
          99).supply_power = [7] :=
  ⟨rfl, fun _ _ => rfl, rfl⟩

/-- C4 counterexample: at a concrete reachable input (powered, core count 1,
`cpu_percent = 50`, targets 16/15 so the PID delta is `1.925`), the
cpu limit after the adjustment is `2077/40`, not an integer — refuting
«cpu_percent is an integer in [7,100]». -/
theorem C4_cpu_not_integral :
    ¬ ∃ n : ℤ, (adjustment 16 15 50 1 0 (19, 1/2, 1) 0).cpu = (n : ℚ) := by
  have h : (adjustment 16 15 50 1 0 (19, 1/2, 1) 0).cpu = 2077/40 := by
    norm_num [adjustment, adjust, gearbox, clamp_cpu, core_limits, DT, CORES,
      CHANGE_DEADZONE]
  rintro ⟨n, hn⟩
  rw [h] at hn
  have h40 : (2077 : ℚ) = (n : ℚ) * 40 := by
    rw [← hn]; norm_num
  have hz : (2077 : ℤ) = n * 40 := by exact_mod_cast h40
  omega

/-- C4 (corrected): after every fired automatic-mode adjustment the cpu limit
lies in `[7, 100]` (as a rational — not necessarily an integer, see the
counterexample) and, whenever the core count was in `[1, 4]` before the
adjustment (as in every reachable powered state), it stays in `[1, 4]`. -/
theorem C4_limits_invariant (pt pw cpu : ℚ) (cores : ℕ) (integral : ℚ)
    (pid : ℚ × ℚ × ℚ) (pe : ℚ) (h1 : 1 ≤ cores) (h2 : cores ≤ 4) :
    7 ≤ (adjustment pt pw cpu cores integral pid pe).cpu ∧
      (adjustment pt pw cpu cores integral pid pe).cpu ≤ 100 ∧
      1 ≤ (adjustment pt pw cpu cores integral pid pe).cores ∧
      (adjustment pt pw cpu cores integral pid pe).cores ≤ 4 := by
  unfold adjustment
  dsimp only
  exact ⟨(clamp_cpu_bounds _).1, (clamp_cpu_bounds _).2,
    (gearbox_cores_bounds _ _ _ _ h1 h2).1, (gearbox_cores_bounds _ _ _ _ h1 h2).2⟩

/-- C4 witness: the invariant instantiated at the counterexample's input. -/
theorem C4_witness :
    7 ≤ (adjustment 16 15 50 1 0 (19, 1/2, 1) 0).cpu ∧
      (adjustment 16 15 50 1 0 (19, 1/2, 1) 0).cpu ≤ 100 ∧
      1 ≤ (adjustment 16 15 50 1 0 (19, 1/2, 1) 0).cores ∧
      (adjustment 16 15 50 1 0 (19, 1/2, 1) 0).cores ≤ 4 :=
  C4_limits_invariant 16 15 50 1 0 (19, 1/2, 1) 0 (by norm_num) (by norm_num)

/-- C5 (confirmed): on an upshift trigger (`power_target` above the table
entry for the current core count) the core count is incremented saturating at
`CORES = 4` with no cpu recompute on saturation; otherwise `cpu_percent`
becomes `int(((power_target − lower)/(upper − lower))·100)` with
`upper = core_limits[new]` and `lower = core_limits[new − 1]`. -/
theorem C5_upshift (pt cpu : ℚ) (cores : ℕ) (integral : ℚ)
    (hup : pt > core_limits.getD cores 0) :
    (cores = CORES → gearbox pt cpu cores integral = (cpu, CORES, integral)) ∧
      (cores + 1 ≤ CORES → gearbox pt cpu cores integral =
        (((pyInt (((pt - core_limits.getD cores 0) /
            (core_limits.getD (cores + 1) 0 - core_limits.getD cores 0)) * 100) :
              ℤ) : ℚ),
          cores + 1, integral)) := by
  unfold gearbox
  rw [if_pos hup]
  constructor
  · intro hc
    subst hc
    norm_num [CORES]
  · intro hc
    have hns : ¬ (cores + 1 > CORES) := by omega
    rw [if_neg hns]
    simp

/-- C5 witness: from 1 core with `power_target = 32 > core_limits[1] = 31`,
the gearbox moves to 2 cores and recomputes the cpu limit by interpolation
between `core_limits[1]` and `core_limits[2]`. -/
theorem C5_witness :
    gearbox 32 50 1 0 =
      (((pyInt (((32 - core_limits.getD 1 0) /
          (core_limits.getD 2 0 - core_limits.getD 1 0)) * 100) : ℤ) : ℚ),
        2, 0) :=
  (C5_upshift 32 50 1 0 (by norm_num [core_limits])).2 (by norm_num [CORES])

/-! ### Lemmas about `splitChars` / `pySplit` -/

lemma splitChars_ne_nil (sep : Char) (l : List Char) : splitChars sep l ≠ [] := by
  cases l with
  | nil => simp [splitChars]
  | cons c cs =>
    simp only [splitChars]
    split_ifs <;> simp

lemma splitChars_singleton {sep : Char} {l x : List Char}
    (h : splitChars sep l = [x]) : l = x := by
  induction l generalizing x with
  | nil =>
    simp only [splitChars, List.cons.injEq, and_true] at h
    exact h
  | cons c cs ih =>
    simp only [splitChars] at h
    by_cases hc : c = sep
    · rw [if_pos hc] at h
      injection h with h1 h2
      exact absurd h2 (splitChars_ne_nil sep cs)
    · rw [if_neg hc] at h
      injection h with h1 h2
      obtain ⟨y, ys, hy⟩ := List.exists_cons_of_ne_nil (splitChars_ne_nil sep cs)
      rw [hy] at h1 h2
      simp only [List.headD_cons, List.tail_cons] at h1 h2
      subst h2
      have hcs : cs = y := ih (by rw [hy])
      rw [hcs]
      exact h1

lemma splitChars_no_sep {sep : Char} {l : List Char} (h : sep ∉ l) :
    splitChars sep l = [l] := by
  induction l with
  | nil => rfl
  | cons c cs ih =>
    simp only [List.mem_cons, not_or] at h
    obtain ⟨h1, h2⟩ := h
    simp only [splitChars]
    rw [if_neg (fun e => h1 e.symm), ih h2]
    simp

lemma splitChars_append (sep : Char) (l₂ : List Char) :
    ∀ l₁ : List Char, sep ∉ l₁ →
      splitChars sep (l₁ ++ sep :: l₂) = l₁ :: splitChars sep l₂ := by
  intro l₁
  induction l₁ with
  | nil =>
    intro _
    rw [List.nil_append]
    simp [splitChars]
  | cons c cs ih =>
    intro h
    simp only [List.mem_cons, not_or] at h
    obtain ⟨h1, h2⟩ := h
    rw [List.cons_append]
    simp only [splitChars]
    rw [ih h2, if_neg (fun e => h1 e.symm)]
    simp

lemma string_mk_data (s : String) : String.mk s.data = s := rfl

lemma pySplit_ne_nil (s : String) : pySplit s ≠ [] := by
  unfold pySplit
  intro h
  exact splitChars_ne_nil ':' s.data (List.map_eq_nil_iff.mp h)

lemma pySplit_singleton {s x : String} (h : pySplit s = [x]) : s = x := by
  unfold pySplit at h
  cases hsc : splitChars ':' s.data with
  | nil => exact absurd hsc (splitChars_ne_nil _ _)
  | cons a t =>
    rw [hsc] at h
    cases t with
    | cons b u => simp at h
    | nil =>
      simp only [List.map_cons, List.map_nil] at h
      injection h with h1 h2
      calc s = String.mk s.data := (string_mk_data s).symm
        _ = String.mk a := by rw [splitChars_singleton hsc]
        _ = x := h1

lemma pySplit_status_append (f : String) :
    pySplit ("status:" ++ f) = "status" :: pySplit f := by
  unfold pySplit
  have hdata : ("status:" ++ f).data = "status".data ++ ':' :: f.data := by
    cases f with
    | mk d => rfl
  rw [hdata, splitChars_append ':' f.data "status".data (by decide)]
  rfl

lemma pySplit_no_colon {f : String} (h : ':' ∉ f.data) : pySplit f = [f] := by
  unfold pySplit
  rw [splitChars_no_sep h]
  simp [string_mk_data]

/-- C8 counterexample: a bare `"status"` reply (no colon, so `data[1]` does
not exist) raises an uncaught `IndexError`, so the tick does not complete —
refuting «for every possible inbound message the tick completes without an
uncaught exception». -/
theorem C8_bare_status_raises :
    ingest (some "status") 0 = Except.error "IndexError" := rfl

/-- C8 (corrected): for every inbound message other than the bare string
`"status"`, ingestion completes without an exception; a missing reply yields
`cpu_use = 0`, and a status reply whose numeric field is malformed yields
`cpu_use = 0`. -/
theorem C8_failsoft (c : ℚ) :
    ingest none c = Except.ok 0 ∧
      (∀ t : String, t ≠ "status" → ∃ v, ingest (some t) c = Except.ok v) ∧
      (∀ f : String, ':' ∉ f.data → pyFloat f = none →
        ingest (some ("status:" ++ f)) c = Except.ok 0) := by
  refine ⟨rfl, ?_, ?_⟩
  · intro t ht
    unfold ingest
    dsimp only
    cases hd : pySplit t with
    | nil => exact absurd hd (pySplit_ne_nil t)
    | cons a rest =>
      by_cases ha : a = "status"
      · subst ha
        cases rest with
        | nil => exact absurd (pySplit_singleton hd) ht
        | cons f r => exact ⟨(pyFloat f).getD 0, by simp⟩
      · exact ⟨c, by simp [ha]⟩
  · intro f hcol hpf
    unfold ingest
    dsimp only
    rw [pySplit_status_append, pySplit_no_colon hcol]
    simp [hpf]

/-- C8 witness: a missing reply, a non-status message, and a status reply
with a malformed numeric field all complete the ingestion. -/
theorem C8_witness :
    ingest none 3 = Except.ok 0 ∧
      (∃ v, ingest (some "hello") 3 = Except.ok v) ∧
      ingest (some ("status:" ++ "abc")) 3 = Except.ok 0 :=
  ⟨(C8_failsoft 3).1, (C8_failsoft 3).2.1 "hello" (by decide),
    (C8_failsoft 3).2.2 "abc" (by decide) rfl⟩

/-! ### Non-interference of the ingested cpu reading (claim C10) -/

/-- Two inbound messages that are equal, or are both `status` replies
(differing only in what follows the first colon). -/
inductive MsgEquiv : Option String → Option String → Prop where
  | refl (m : Option String) : MsgEquiv m m
  | status (a b : String) : MsgEquiv (some ("status:" ++ a)) (some ("status:" ++ b))

lemma ingest_cases (m₁ m₂ : Option String) (c₁ c₂ : ℚ) (h : MsgEquiv m₁ m₂) :
    (∃ e, ingest m₁ c₁ = Except.error e ∧ ingest m₂ c₂ = Except.error e) ∨
      (∃ v₁ v₂, ingest m₁ c₁ = Except.ok v₁ ∧ ingest m₂ c₂ = Except.ok v₂) := by
  cases h with
  | refl =>
    cases m₁ with
    | none => exact Or.inr ⟨0, 0, rfl, rfl⟩
    | some t =>
      unfold ingest
      dsimp only
      cases hd : pySplit t with
      | nil => exact absurd hd (pySplit_ne_nil t)
      | cons a rest =>
        by_cases ha : a = "status"
        · subst ha
          cases rest with
          | nil => exact Or.inl ⟨"IndexError", by simp, by simp⟩
          | cons f r => exact Or.inr ⟨(pyFloat f).getD 0, (pyFloat f).getD 0, by simp, by simp⟩
        · exact Or.inr ⟨c₁, c₂, by simp [ha], by simp [ha]⟩
  | status a b =>
    unfold ingest
    dsimp only
    rw [pySplit_status_append, pySplit_status_append]
    obtain ⟨x, xs, hx⟩ := List.exists_cons_of_ne_nil (pySplit_ne_nil a)
    obtain ⟨y, ys, hy⟩ := List.exists_cons_of_ne_nil (pySplit_ne_nil b)
    rw [hx, hy]
    exact Or.inr ⟨(pyFloat x).getD 0, (pyFloat y).getD 0, by simp, by simp⟩

lemma updateWindows_erase (s : PState) (p : ℚ) :
    updateWindows (eraseCpu s) p = eraseCpu (updateWindows s p) := rfl

lemma adjStage_erase (s : PState) (pt pw : ℚ) :
    adjStage (eraseCpu s) pt pw = eraseCpu (adjStage s pt pw) := by
  unfold adjStage
  simp only [eraseCpu]
  split_ifs <;> rfl

lemma powerStep_erase (s : PState) (pt : ℚ) :
    powerStep (eraseCpu s) pt = (eraseCpu (powerStep s pt).1, (powerStep s pt).2) := by
  unfold powerStep
  simp only [eraseCpu]
  split_ifs <;> rfl

lemma tickRest_erase (s : PState) (p : ℚ) :
    tickRest (eraseCpu s) p =
      Except.map (fun r => (eraseCpu r.1, r.2)) (tickRest s p) := by
  unfold tickRest
  rw [updateWindows_erase]
  dsimp only
  have e1 : (eraseCpu (updateWindows s p)).supply_power =
      (updateWindows s p).supply_power := rfl
  rw [e1]
  cases h1 : average (updateWindows s p).supply_power with
  | none => rfl
  | some pt1 =>
    have e2 : (eraseCpu (updateWindows s p)).usage_power =
        (updateWindows s p).usage_power := rfl
    rw [e2]
    cases h2 : average (updateWindows s p).usage_power with
    | none => rfl
    | some pw1 =>
      dsimp only
      rw [adjStage_erase, powerStep_erase]
      rfl

lemma run_erase_cong :
    ∀ (inp₁ inp₂ : List (Option String × ℚ)) (s₁ s₂ : PState),
      eraseCpu s₁ = eraseCpu s₂ →
      List.Forall₂ (fun a b => a.2 = b.2 ∧ MsgEquiv a.1 b.1) inp₁ inp₂ →
      Except.map (fun r => (eraseCpu r.1, r.2)) (run s₁ inp₁) =
        Except.map (fun r => (eraseCpu r.1, r.2)) (run s₂ inp₂) := by
  intro inp₁ inp₂ s₁ s₂ hs h
  induction h generalizing s₁ s₂ with
  | nil => simp [run, Except.map, hs]
  | @cons a b l₁ l₂ hab htail ih =>
    obtain ⟨hp, hm⟩ := hab
    have key : Except.map (fun r => (eraseCpu r.1, r.2)) (tick s₁ a.1 a.2) =
        Except.map (fun r => (eraseCpu r.1, r.2)) (tick s₂ b.1 b.2) := by
      unfold tick
      rcases ingest_cases a.1 b.1 s₁.cpu_use s₂.cpu_use hm with
        ⟨e, he₁, he₂⟩ | ⟨v₁, v₂, hv₁, hv₂⟩
      · rw [he₁, he₂]
        rfl
      · rw [hv₁, hv₂, hp]
        show Except.map _ (tickRest { s₁ with cpu_use := v₁ } b.2) =
          Except.map _ (tickRest { s₂ with cpu_use := v₂ } b.2)
        rw [← tickRest_erase, ← tickRest_erase]
        have he : eraseCpu { s₁ with cpu_use := v₁ } =
            eraseCpu { s₂ with cpu_use := v₂ } := by
          have g1 : eraseCpu { s₁ with cpu_use := v₁ } = eraseCpu s₁ := rfl
          have g2 : eraseCpu { s₂ with cpu_use := v₂ } = eraseCpu s₂ := rfl
          rw [g1, g2, hs]
        rw [he]
    rcases ht₁ : tick s₁ a.1 a.2 with e₁ | r₁ <;>
      rcases ht₂ : tick s₂ b.1 b.2 with e₂ | r₂ <;>
      rw [ht₁, ht₂] at key
    · have hee : e₁ = e₂ := by
        simpa [Except.map] using key
      subst hee
      simp [run, ht₁, ht₂, Except.map, Except.bind, bind]
    · exact absurd key (by simp [Except.map])
    · exact absurd key (by simp [Except.map])
    · simp only [Except.map, Except.ok.injEq, Prod.mk.injEq] at key
      obtain ⟨k1, k2⟩ := key
      have hrun := ih r₁.1 r₂.1 k1
      rcases hr₁ : run r₁.1 l₁ with f₁ | q₁ <;>
        rcases hr₂ : run r₂.1 l₂ with f₂ | q₂ <;>
        rw [hr₁, hr₂] at hrun
      · have hff : f₁ = f₂ := by simpa [Except.map] using hrun
        subst hff
        simp [run, ht₁, ht₂, hr₁, hr₂, Except.map, Except.bind, bind]
      · exact absurd hrun (by simp [Except.map])
      · exact absurd hrun (by simp [Except.map])
      · simp only [Except.map, Except.ok.injEq, Prod.mk.injEq] at hrun
        obtain ⟨q1, q2⟩ := hrun
        simp [run, ht₁, ht₂, hr₁, hr₂, Except.map, Except.bind, bind, q1, q2, k2]

/-- C10 (confirmed): the ingested client CPU-use reading never influences the
control outputs.  For any two input streams that pairwise agree on the
measured supply power and whose inbound messages are equal or are both
status replies (with arbitrary, possibly different, payloads after the first
colon), the runs produce identical outcomes — same error or same commands
and same final state apart from the stored `cpu_use` field. -/
theorem C10_status_noninterference (s : PState)
    (inp₁ inp₂ : List (Option String × ℚ))
    (h : List.Forall₂ (fun a b => a.2 = b.2 ∧ MsgEquiv a.1 b.1) inp₁ inp₂) :
    Except.map (fun r => (eraseCpu r.1, r.2)) (run s inp₁) =
      Except.map (fun r => (eraseCpu r.1, r.2)) (run s inp₂) :=
  run_erase_cong inp₁ inp₂ s s rfl h

/-- C10 witness: one tick whose status reply carries `50` versus one whose
status reply carries `70` produce identical observable outcomes. -/
theorem C10_witness :
    Except.map (fun r => (eraseCpu r.1, r.2))
        (run initState [(some ("status:" ++ "50"), 20)]) =
      Except.map (fun r => (eraseCpu r.1, r.2))
        (run initState [(some ("status:" ++ "70"), 20)]) :=
  C10_status_noninterference initState _ _
    (List.Forall₂.cons ⟨rfl, MsgEquiv.status "50" "70"⟩ List.Forall₂.nil)

end Sunburn
